import Mathlib

/-
Shallow embedding of `miio/airconditioningcompanion.py` (Xiaomi Air
Conditioning Companion codec): the enum domains, the template registry
`DEVICE_COMMAND_PRESETS`, the command encoder `send_configuration` and the
status decoder `AirConditioningCompanionStatus`.

Conventions of the embedding:
* Python `str` is Lean `String`; slicing `s[a:b]` (with literal nonnegative
  bounds `a ≤ b`, the only form the source uses) is `pySlice`.
* Python `int` is Lean `Int`.
* Code that can raise returns `Except PyErr _`; `PyErr` distinguishes the
  exceptions the embedded lines can actually raise.
* `send_configuration` returns the command string that the source hands to
  `self.send_command` (the RPC transport itself is out of scope).
-/

/-- Python exceptions that the embedded code can raise.  `valueErrorInt` is
the `ValueError` raised by `int(s, base)` on a malformed literal,
`valueErrorEnum` the `ValueError` raised by an `Enum` constructor call such
as `FanSpeed(9)`, `typeError` the `TypeError` raised by `str.replace` when
its replacement argument is not a `str`, and `indexError` the `IndexError`
of list indexing. -/
inductive PyErr
  | typeError
  | valueErrorInt
  | valueErrorEnum
  | indexError
deriving DecidableEq

/-- A Python object in the positions the encoder passes to `str.replace`:
either an `int` (the enum `.value`s of this module) or a `str`. -/
inductive PyObj
  | int (n : Int)
  | str (s : String)

/-- Lines 6-11: `class OperationMode(enum.Enum)`. -/
inductive OperationMode
  | Heat
  | Cool
  | Auto
  | Dehumidify
  | Ventilate
deriving DecidableEq

/-- Integer codes of `OperationMode` (Heat = 0, ..., Ventilate = 4). -/
def OperationMode.value : OperationMode → Int
  | .Heat => 0
  | .Cool => 1
  | .Auto => 2
  | .Dehumidify => 3
  | .Ventilate => 4

/-- Lines 14-18: `class FanSpeed(enum.Enum)`. -/
inductive FanSpeed
  | Low
  | Medium
  | High
  | Auto
deriving DecidableEq

/-- Integer codes of `FanSpeed` (Low = 0, Medium = 1, High = 2, Auto = 3). -/
def FanSpeed.value : FanSpeed → Int
  | .Low => 0
  | .Medium => 1
  | .High => 2
  | .Auto => 3

/-- Lines 21-23: `class SwingMode(enum.Enum)`. -/
inductive SwingMode
  | On
  | Off
deriving DecidableEq

/-- Integer codes of `SwingMode` (On = 0, Off = 1). -/
def SwingMode.value : SwingMode → Int
  | .On => 0
  | .Off => 1

/-- Lines 26-28: `class Power(enum.Enum)`. -/
inductive Power
  | On
  | Off
deriving DecidableEq

/-- Integer codes of `Power` (On = 1, Off = 0). -/
def Power.value : Power → Int
  | .On => 1
  | .Off => 0

/-- One entry of `DEVICE_COMMAND_PRESETS`: the `deviceType` string, the
`base` template, and the optional `off` template (key `POWER_OFF = 'off'`).
-/
structure CommandPreset where
  deviceType : String
  base : String
  off : Option String
deriving DecidableEq

/-- Lines 34-68: the template registry, as an association list keyed by the
model-id string (dict keys are distinct, so `List.lookup` is dict lookup).
-/
def DEVICE_COMMAND_PRESETS : List (String × CommandPreset) :=
  [("fallback", ⟨"generic", "pomowiswtta0", none⟩),
   ("0180111111", ⟨"media_1", "pomowiswtt02", none⟩),
   ("0180222221", ⟨"gree_1", "pomowiswtt02", none⟩),
   ("0100010727",
    ⟨"gree_2", "pomowiswtt1100190t1t205002102000t7t0190t1t207002000000t4t0",
     some "01011101004000205002112000D04000207002000000A0"⟩),
   ("0100004795", ⟨"gree_8", "pomowiswtt0100090900005002", none⟩),
   ("0180333331", ⟨"haier_1", "pomowiswtt12", none⟩),
   ("0180666661", ⟨"aux_1", "pomowiswtt12", none⟩),
   ("0180777771", ⟨"chigo_1", "pomowiswtt12", none⟩)]

/-- Python `configuration.replace(old, new)` as the source calls it: when
`new` is a `str` it replaces every occurrence of `old`; when `new` is any
other object (here: the `int` enum `.value`s) CPython raises
`TypeError: replace() argument 2 must be str, not int`. -/
def pyStrReplace (s old : String) (new : PyObj) : Except PyErr String :=
  match new with
  | .str t => Except.ok (s.replace old t)
  | .int _ => Except.error PyErr.typeError

/-- Line 168: the test `power == False`.  `Power` derives from `enum.Enum`,
which inherits identity-based equality from `object`, and the builtin
`False` is not a member of `Power`; hence the comparison evaluates to
`False` for every `Power` argument, including `Power.Off`. -/
def powerEqPyFalse (_power : Power) : Bool := false

/-- Line 182: Python `hex(n)[2:]` — lowercase hexadecimal digits without
padding.  For a negative `n`, `hex` produces `"-0x..."` and the slice keeps
the `"x"`: `hex(-5)[2:] == "x5"`. -/
def pyHexSlice2 (n : Int) : String :=
  if 0 ≤ n then String.mk (Nat.toDigits 16 n.toNat)
  else "x" ++ String.mk (Nat.toDigits 16 (-n).toNat)

/-- Python `str.upper()` restricted to ASCII content (all strings of this
module are ASCII): uppercase every character. -/
def strUpper (s : String) : String := String.mk (s.data.map Char.toUpper)

/-- Lines 184-185, 188-189 and 192-193 with `k = 1, 4, 7`:
`hex((k + int(target_temperature) - 17) % 16)[2:].upper()`.  Python `%`
with a positive modulus returns a value in `[0, 16)`, as Lean `Int.emod`
does, so the `hex` slice is a single digit and never negative. -/
def tempDigitUpper (k target_temperature : Int) : String :=
  strUpper (pyHexSlice2 ((k + target_temperature - 17) % 16))

/-- Lines 162-196: `AirConditioningCompanion.send_configuration`, returning
the command string passed to `self.send_command`.  The source's
`target_temperature` is a float used only through `int(target_temperature)`
(truncation); the embedding takes that integer directly.  The guard of line
168, `(power == False) and (model in DEVICE_COMMAND_PRESETS) and
(POWER_OFF in DEVICE_COMMAND_PRESETS[model])`, is embedded with the lookup
fused into one `Option.bind` since `POWER_OFF = 'off'` is the `off` field.
-/
def send_configuration (model : String) (power : Power)
    (operation_mode : OperationMode) (target_temperature : Int)
    (fan_speed : FanSpeed) (swing_mode : SwingMode) : Except PyErr String :=
  if powerEqPyFalse power
      && ((DEVICE_COMMAND_PRESETS.lookup model).bind CommandPreset.off).isSome
  then
    Except.ok
      (model ++ ((DEVICE_COMMAND_PRESETS.lookup model).bind
        CommandPreset.off).getD "")
  else do
    let configuration :=
      match DEVICE_COMMAND_PRESETS.lookup model with
      | some entry => model ++ entry.base
      | none =>
          model ++
            ((DEVICE_COMMAND_PRESETS.lookup "fallback").map
              CommandPreset.base).getD ""
    let configuration ← pyStrReplace configuration "po" (PyObj.int power.value)
    let configuration ←
      pyStrReplace configuration "mo" (PyObj.int operation_mode.value)
    let configuration ←
      pyStrReplace configuration "wi" (PyObj.int fan_speed.value)
    let configuration ←
      pyStrReplace configuration "sw" (PyObj.int swing_mode.value)
    let configuration ←
      pyStrReplace configuration "tt"
        (PyObj.str (pyHexSlice2 target_temperature))
    let configuration ←
      pyStrReplace configuration "t1t"
        (PyObj.str (tempDigitUpper 1 target_temperature))
    let configuration ←
      pyStrReplace configuration "t4t"
        (PyObj.str (tempDigitUpper 4 target_temperature))
    let configuration ←
      pyStrReplace configuration "t7t"
        (PyObj.str (tempDigitUpper 7 target_temperature))
    return configuration

/-- Python list indexing `xs[i]` for a nonnegative literal index: the
element when present, `IndexError` otherwise. -/
def pyGet (xs : List String) (i : Nat) : Except PyErr String :=
  match xs.get? i with
  | some s => Except.ok s
  | none => Except.error PyErr.indexError

/-- Python slicing `s[a:b]` for literal bounds `0 ≤ a ≤ b` (the only form
the decoder uses): the characters at indices `a` to `b - 1`, clamped to the
length of `s` — never an error. -/
def pySlice (s : String) (a b : Nat) : String :=
  String.mk (List.take (b - a) (List.drop a s.data))

/-- Value of one decimal digit character, `none` for anything else. -/
def digitVal? (c : Char) : Option Int :=
  if '0' ≤ c ∧ c ≤ '9' then some ((c.toNat : Int) - ('0'.toNat : Int))
  else none

/-- Value of one hexadecimal digit character (either case), `none` for
anything else. -/
def hexVal? (c : Char) : Option Int :=
  if '0' ≤ c ∧ c ≤ '9' then some ((c.toNat : Int) - ('0'.toNat : Int))
  else if 'a' ≤ c ∧ c ≤ 'f' then
    some ((c.toNat : Int) - ('a'.toNat : Int) + 10)
  else if 'A' ≤ c ∧ c ≤ 'F' then
    some ((c.toNat : Int) - ('A'.toNat : Int) + 10)
  else none

/-- Read every character as a digit via `val?`; `none` if any character is
not a digit. -/
def digitsVal? (val? : Char → Option Int) : List Char → Option (List Int)
  | [] => some []
  | c :: cs =>
      match val? c, digitsVal? val? cs with
      | some d, some ds => some (d :: ds)
      | _, _ => none

/-- Python `int(s, base)` restricted to plain unsigned digit literals, the
only shape the decoder's fixed-width slices are meant to carry: the value
of the digit string, or `ValueError` when `s` is empty or contains a
non-digit.  (CPython additionally strips whitespace and accepts a sign, an
underscore separator and a `0x` prefix; none of those forms yields a value
here, so they are modelled as the same `ValueError`.) -/
def pyIntDigits (val? : Char → Option Int) (base : Int) (s : String) :
    Except PyErr Int :=
  match digitsVal? val? s.data with
  | none => Except.error PyErr.valueErrorInt
  | some [] => Except.error PyErr.valueErrorInt
  | some ds => Except.ok (ds.foldl (fun a d => base * a + d) 0)

/-- Python `int(s)` (base 10). -/
def pyInt10 (s : String) : Except PyErr Int := pyIntDigits digitVal? 10 s

/-- Python `int(s, 16)`. -/
def pyInt16 (s : String) : Except PyErr Int := pyIntDigits hexVal? 16 s

/-- Python `FanSpeed(v)`: the member with value `v`, else the `ValueError`
"v is not a valid FanSpeed". -/
def FanSpeed.ofValue (v : Int) : Except PyErr FanSpeed :=
  if v = 0 then Except.ok FanSpeed.Low
  else if v = 1 then Except.ok FanSpeed.Medium
  else if v = 2 then Except.ok FanSpeed.High
  else if v = 3 then Except.ok FanSpeed.Auto
  else Except.error PyErr.valueErrorEnum

/-- Python `OperationMode(v)`: the member with value `v`, else the
`ValueError` "v is not a valid OperationMode". -/
def OperationMode.ofValue (v : Int) : Except PyErr OperationMode :=
  if v = 0 then Except.ok OperationMode.Heat
  else if v = 1 then Except.ok OperationMode.Cool
  else if v = 2 then Except.ok OperationMode.Auto
  else if v = 3 then Except.ok OperationMode.Dehumidify
  else if v = 4 then Except.ok OperationMode.Ventilate
  else Except.error PyErr.valueErrorEnum

/-- Lines 71-79: `AirConditioningCompanionStatus.__init__` stores the raw
response list verbatim — it performs no validation of any kind. -/
structure AirConditioningCompanionStatus where
  data : List String

/-- Lines 81-84: `str(self.data[2])`. -/
def AirConditioningCompanionStatus.air_condition_power
    (st : AirConditioningCompanionStatus) : Except PyErr String :=
  pyGet st.data 2

/-- Lines 86-89: `str(self.data[0][0:2] + self.data[0][8:16])`. -/
def AirConditioningCompanionStatus.air_condition_model
    (st : AirConditioningCompanionStatus) : Except PyErr String := do
  let s ← pyGet st.data 0
  return pySlice s 0 2 ++ pySlice s 8 16

/-- Lines 91-94: `'on' if (self.data[1][2:3] == '1') else 'off'`. -/
def AirConditioningCompanionStatus.power
    (st : AirConditioningCompanionStatus) : Except PyErr String := do
  let s ← pyGet st.data 1
  return if pySlice s 2 3 = "1" then "on" else "off"

/-- Lines 96-99: `self.power == 'on'`. -/
def AirConditioningCompanionStatus.is_on
    (st : AirConditioningCompanionStatus) : Except PyErr Bool := do
  let p ← st.power
  return decide (p = "on")

/-- Lines 101-104: `int(self.data[1][6:8], 16)`. -/
def AirConditioningCompanionStatus.temperature
    (st : AirConditioningCompanionStatus) : Except PyErr Int := do
  let s ← pyGet st.data 1
  pyInt16 (pySlice s 6 8)

/-- Lines 106-109: `self.data[1][5:6] == '0'`. -/
def AirConditioningCompanionStatus.swing_mode
    (st : AirConditioningCompanionStatus) : Except PyErr Bool := do
  let s ← pyGet st.data 1
  return decide (pySlice s 5 6 = "0")

/-- Lines 111-118: `speed = int(self.data[1][4:5])`, then
`FanSpeed(speed)`.  The source's `if speed is not None` test is always true
because `int()` never returns `None`, so the `return None` branch is dead
code. -/
def AirConditioningCompanionStatus.fan_speed
    (st : AirConditioningCompanionStatus) : Except PyErr FanSpeed := do
  let s ← pyGet st.data 1
  let speed ← pyInt10 (pySlice s 4 5)
  FanSpeed.ofValue speed

/-- Lines 120-127: `mode = int(self.data[1][3:4])`, then
`OperationMode(mode)`; the `is not None` test is likewise always true. -/
def AirConditioningCompanionStatus.mode
    (st : AirConditioningCompanionStatus) : Except PyErr OperationMode := do
  let s ← pyGet st.data 1
  let m ← pyInt10 (pySlice s 3 4)
  OperationMode.ofValue m

/-- C1: the spec claims that for a model whose registry entry defines an
off template (model "0100010727"), `send_configuration` with
`power = Power.Off` returns the model id concatenated with the off
template.  On the code this is false: line 168 tests `power == False`,
which is `False` for the enum member `Power.Off`, so the shortcut is never
taken, and the call then raises `TypeError` at
`configuration.replace('po', power.value)` because `power.value` is an
`int`.  This theorem evaluates the code at the failing input: the registry
does hold the off template, yet the call raises `TypeError` instead of
returning `"0100010727" ++ off_template`. -/
theorem c1_power_off_shortcut_never_taken :
    ((DEVICE_COMMAND_PRESETS.lookup "0100010727").bind CommandPreset.off
      = some "01011101004000205002112000D04000207002000000A0")
    ∧ send_configuration "0100010727" Power.Off OperationMode.Cool 26
        FanSpeed.Auto SwingMode.Off = Except.error PyErr.typeError
    ∧ send_configuration "0100010727" Power.Off OperationMode.Cool 26
        FanSpeed.Auto SwingMode.Off
      ≠ Except.ok
          ("0100010727" ++ "01011101004000205002112000D04000207002000000A0")
    := by
  refine ⟨rfl, rfl, fun h => ?_⟩
  exact Except.noConfusion h

/-- C2: the spec claims the encoder replaces the tokens "po", "mo", "wi",
"sw" with the decimal string of the enum codes and returns the substituted
string without error.  On the code this is false for every input: the
replacement arguments `power.value`, `operation_mode.value`,
`fan_speed.value` and `swing_mode.value` are Python `int`s, and
`str.replace` raises `TypeError` on a non-`str` replacement, so the very
first substitution raises.  This theorem evaluates the code at a concrete
valid input. -/
theorem c2_enum_substitution_typeerror :
    send_configuration "0180222221" Power.On OperationMode.Heat 20
      FanSpeed.Low SwingMode.On = Except.error PyErr.typeError := rfl

/-- C3: the spec claims the encoder replaces the token "tt" with the
lowercase unpadded hex digits of the temperature (a single digit below 16).
The replacement value expression of line 182 does compute exactly that —
`pyHexSlice2 15 = "f"` — but the encoder never reaches line 182: it raises
`TypeError` at the earlier `'po'` substitution of line 178 on every call.
This theorem evaluates both facts at temperature 15. -/
theorem c3_tt_substitution_unreachable :
    pyHexSlice2 15 = "f"
    ∧ pyHexSlice2 25 = "19"
    ∧ send_configuration "0180111111" Power.On OperationMode.Cool 15
        FanSpeed.Medium SwingMode.Off = Except.error PyErr.typeError :=
  ⟨rfl, rfl, rfl⟩

/-- C4: the spec claims the three derived temperature digits substituted
for "t1t", "t4t", "t7t" are `hex_upper((k + floor(t) - 17) mod 16)` for
`k = 1, 4, 7`, giving "1", "4", "7" at temperature 17.  The digit
expressions of lines 184-194 do compute those values, but the encoder never
substitutes them: it raises `TypeError` at the `'po'` substitution of line
178 on every call.  This theorem evaluates both facts at temperature 17. -/
theorem c4_temp_digits_unreachable :
    tempDigitUpper 1 17 = "1"
    ∧ tempDigitUpper 4 17 = "4"
    ∧ tempDigitUpper 7 17 = "7"
    ∧ tempDigitUpper 1 32 = "0"
    ∧ send_configuration "0100010727" Power.On OperationMode.Heat 17
        FanSpeed.High SwingMode.On = Except.error PyErr.typeError :=
  ⟨rfl, rfl, rfl, rfl, rfl⟩

/-- C5: the spec claims that for a model id absent from the registry the
encoder uses the "fallback" entry, performs all substitutions and returns a
command string without error.  The lookup does fall back — the registry has
no entry for "9999999999" — but the call still raises `TypeError` at the
`'po'` substitution, because the enum `.value`s are `int`s; no input ever
returns a command string.  This theorem evaluates the code at the claim's
own example input. -/
theorem c5_fallback_still_typeerror :
    DEVICE_COMMAND_PRESETS.lookup "9999999999" = none
    ∧ send_configuration "9999999999" Power.On OperationMode.Cool 24
        FanSpeed.Auto SwingMode.Off = Except.error PyErr.typeError :=
  ⟨rfl, rfl⟩

/-- Dropping at a position known to hold `c` uncovers `c` as the head. -/
theorem drop_cons_of_get? (l : List Char) (i : Nat) (c : Char)
    (h : l.get? i = some c) : l.drop i = c :: l.drop (i + 1) := by
  induction l generalizing i with
  | nil => simp at h
  | cons a l ih =>
    cases i with
    | zero =>
      simp only [List.get?_cons_zero, Option.some.injEq] at h
      simp [h]
    | succ i =>
      simp only [List.get?_cons_succ] at h
      simpa [List.drop_succ_cons] using ih i h

/-- A one-character Python slice `s[i:i+1]` is the character at index `i`
when that index is in range. -/
theorem pySlice_single (s : String) (i : Nat) (c : Char)
    (h : s.data.get? i = some c) : pySlice s i (i + 1) = String.mk [c] := by
  unfold pySlice
  rw [drop_cons_of_get? _ _ _ h, show i + 1 - i = 1 from by omega]
  rfl

/-- A two-character Python slice `s[i:i+2]` is the pair of characters at
indices `i` and `i + 1` when both are in range. -/
theorem pySlice_pair (s : String) (i : Nat) (c d : Char)
    (h1 : s.data.get? i = some c) (h2 : s.data.get? (i + 1) = some d) :
    pySlice s i (i + 2) = String.mk [c, d] := by
  have hd : s.data.drop i = c :: d :: s.data.drop (i + 2) := by
    rw [drop_cons_of_get? _ _ _ h1, drop_cons_of_get? _ _ _ h2]
  unfold pySlice
  rw [hd, show i + 2 - i = 2 from by omega]
  rfl

/-- A Python slice starting at or beyond the end of the string is empty. -/
theorem pySlice_of_le (s : String) (a b : Nat) (h : s.data.length ≤ a) :
    pySlice s a b = "" := by
  unfold pySlice
  rw [List.drop_eq_nil_of_le h, List.take_nil]

/-- Reading two hexadecimal digit characters with `int(·, 16)`. -/
theorem pyInt16_two (c d : Char) (x y : Int) (hc : hexVal? c = some x)
    (hd : hexVal? d = some y) :
    pyInt16 (String.mk [c, d]) = Except.ok (16 * x + y) := by
  have h2 : digitsVal? hexVal? [c, d] = some [x, y] := by
    simp [digitsVal?, hc, hd]
  unfold pyInt16 pyIntDigits
  rw [h2]
  show Except.ok (List.foldl (fun a d => 16 * a + d) 0 [x, y])
    = Except.ok (16 * x + y)
  simp [List.foldl]

/-- Reading one decimal digit character with `int(·)`. -/
theorem pyInt10_one (c : Char) (x : Int) (hc : digitVal? c = some x) :
    pyInt10 (String.mk [c]) = Except.ok x := by
  have h1 : digitsVal? digitVal? [c] = some [x] := by simp [digitsVal?, hc]
  unfold pyInt10 pyIntDigits
  rw [h1]
  show Except.ok (List.foldl (fun a d => 10 * a + d) 0 [x]) = Except.ok x
  simp [List.foldl]

/-- Evaluation of `power` on a three-element response. -/
theorem status_power_eval (s0 s1 s2 : String) :
    AirConditioningCompanionStatus.power ⟨[s0, s1, s2]⟩
      = Except.ok (if pySlice s1 2 3 = "1" then "on" else "off") := rfl

/-- Evaluation of `temperature` on a three-element response. -/
theorem status_temperature_eval (s0 s1 s2 : String) :
    AirConditioningCompanionStatus.temperature ⟨[s0, s1, s2]⟩
      = pyInt16 (pySlice s1 6 8) := rfl

/-- Evaluation of `swing_mode` on a three-element response. -/
theorem status_swing_eval (s0 s1 s2 : String) :
    AirConditioningCompanionStatus.swing_mode ⟨[s0, s1, s2]⟩
      = Except.ok (decide (pySlice s1 5 6 = "0")) := rfl

/-- Evaluation of `fan_speed` on a three-element response. -/
theorem status_fan_speed_eval (s0 s1 s2 : String) :
    AirConditioningCompanionStatus.fan_speed ⟨[s0, s1, s2]⟩
      = (pyInt10 (pySlice s1 4 5)).bind FanSpeed.ofValue := rfl

/-- C6: for every 3-element response whose second element is at least 8
characters long (with hexadecimal digits at indices 6 and 7, which is what
"the base-16 integer value of the characters" presupposes), the decoder
yields power "on" exactly when the character at index 2 of `response[1]` is
'1' (else "off"), temperature as the base-16 value of the characters at
indices 6 and 7, and swing mode true exactly when the character at index 5
is '0'. -/
theorem c6_status_field_layout (s0 s1 s2 : String) (c6c c7c : Char)
    (d6 d7 : Int) (h8 : 8 ≤ s1.data.length)
    (h6 : s1.data.get? 6 = some c6c) (h7 : s1.data.get? 7 = some c7c)
    (hv6 : hexVal? c6c = some d6) (hv7 : hexVal? c7c = some d7) :
    AirConditioningCompanionStatus.power ⟨[s0, s1, s2]⟩
        = Except.ok (if s1.data.get? 2 = some '1' then "on" else "off")
    ∧ AirConditioningCompanionStatus.temperature ⟨[s0, s1, s2]⟩
        = Except.ok (16 * d6 + d7)
    ∧ AirConditioningCompanionStatus.swing_mode ⟨[s0, s1, s2]⟩
        = Except.ok (decide (s1.data.get? 5 = some '0')) := by
  refine ⟨?_, ?_, ?_⟩
  · rw [status_power_eval]
    cases hx : s1.data.get? 2 with
    | none =>
      rw [List.get?_eq_none] at hx
      omega
    | some c =>
      have hs : pySlice s1 2 3 = String.mk [c] := pySlice_single s1 2 c hx
      rw [hs]
      have hiff : (String.mk [c] = "1") ↔ ((some c : Option Char) = some '1')
          := by
        constructor
        · intro h
          have h2 : [c] = ['1'] := congrArg String.data h
          simp at h2
          simp [h2]
        · intro h
          simp at h
          subst h
          rfl
      exact congrArg Except.ok (if_congr hiff rfl rfl)
  · rw [status_temperature_eval]
    have hp : pySlice s1 6 8 = String.mk [c6c, c7c] :=
      pySlice_pair s1 6 c6c c7c h6 h7
    rw [hp]
    exact pyInt16_two c6c c7c d6 d7 hv6 hv7
  · rw [status_swing_eval]
    cases hx : s1.data.get? 5 with
    | none =>
      rw [List.get?_eq_none] at hx
      omega
    | some c =>
      have hs : pySlice s1 5 6 = String.mk [c] := pySlice_single s1 5 c hx
      rw [hs]
      have hiff : (String.mk [c] = "0") ↔ ((some c : Option Char) = some '0')
          := by
        constructor
        · intro h
          have h2 : [c] = ['0'] := congrArg String.data h
          simp at h2
          simp [h2]
        · intro h
          simp at h
          subst h
          rfl
      exact congrArg Except.ok (decide_eq_decide.mpr hiff)

/-- C6 witness: the theorem applied to the docstring's concrete response,
whose second element "010201190280222221" has '1' and '9' at indices 6 and
7, so the temperature is 16 * 1 + 9 = 25. -/
theorem c6_status_field_layout_witness :
    AirConditioningCompanionStatus.power
        ⟨["010500978022222102", "010201190280222221", "2"]⟩
        = Except.ok
            (if ("010201190280222221" : String).data.get? 2 = some '1'
              then "on" else "off")
    ∧ AirConditioningCompanionStatus.temperature
        ⟨["010500978022222102", "010201190280222221", "2"]⟩
        = Except.ok (16 * 1 + 9)
    ∧ AirConditioningCompanionStatus.swing_mode
        ⟨["010500978022222102", "010201190280222221", "2"]⟩
        = Except.ok
            (decide (("010201190280222221" : String).data.get? 5 = some '0'))
    :=
  c6_status_field_layout "010500978022222102" "010201190280222221" "2"
    '1' '9' 1 9 (by decide) (by decide) (by decide) (by decide) (by decide)

/-- C7 counterexample: the spec's decoding scenario for the response
`["010500978022222102", "010201190280222221", "2"]` claims power "on",
mode Cool and model `"01" ++ "97802222"`.  On the code all three are
wrong: the character at index 2 of the second element is '0' (so power is
"off"), the digit at index 3 is '2' (so the mode is Auto, not Cool), and
`response[0][0:2] + response[0][8:16]` is `"01" ++ "80222221"`. -/
theorem c7_counterexample :
    AirConditioningCompanionStatus.power
        ⟨["010500978022222102", "010201190280222221", "2"]⟩
      ≠ Except.ok "on"
    ∧ AirConditioningCompanionStatus.mode
        ⟨["010500978022222102", "010201190280222221", "2"]⟩
      ≠ Except.ok OperationMode.Cool
    ∧ AirConditioningCompanionStatus.air_condition_model
        ⟨["010500978022222102", "010201190280222221", "2"]⟩
      ≠ Except.ok ("01" ++ "97802222") := by
  refine ⟨fun h => ?_, fun h => ?_, fun h => ?_⟩
  · exact absurd (Except.ok.inj h) (by decide)
  · exact absurd (Except.ok.inj h) (by decide)
  · exact absurd (Except.ok.inj h) (by decide)

/-- C7 amended: decoding the response
`["010500978022222102", "010201190280222221", "2"]` yields power "off"
(index 2 holds '0'), temperature 25 (hex "19"), swing mode false (index 5
holds '1'), fan speed Low (digit 0), operation mode Auto (digit 2 at index
3), air-conditioner model `"01" ++ "80222221"` and air-conditioner power
"2". -/
theorem c7_amended_decoding_scenario :
    AirConditioningCompanionStatus.power
        ⟨["010500978022222102", "010201190280222221", "2"]⟩
      = Except.ok "off"
    ∧ AirConditioningCompanionStatus.is_on
        ⟨["010500978022222102", "010201190280222221", "2"]⟩
      = Except.ok false
    ∧ AirConditioningCompanionStatus.temperature
        ⟨["010500978022222102", "010201190280222221", "2"]⟩
      = Except.ok 25
    ∧ AirConditioningCompanionStatus.swing_mode
        ⟨["010500978022222102", "010201190280222221", "2"]⟩
      = Except.ok false
    ∧ AirConditioningCompanionStatus.fan_speed
        ⟨["010500978022222102", "010201190280222221", "2"]⟩
      = Except.ok FanSpeed.Low
    ∧ AirConditioningCompanionStatus.mode
        ⟨["010500978022222102", "010201190280222221", "2"]⟩
      = Except.ok OperationMode.Auto
    ∧ AirConditioningCompanionStatus.air_condition_model
        ⟨["010500978022222102", "010201190280222221", "2"]⟩
      = Except.ok ("01" ++ "80222221")
    ∧ AirConditioningCompanionStatus.air_condition_power
        ⟨["010500978022222102", "010201190280222221", "2"]⟩
      = Except.ok "2" :=
  ⟨rfl, rfl, rfl, rfl, rfl, rfl, rfl, rfl⟩

/-- C8 counterexample: the spec claims every response whose second element
is shorter than 8 characters fails to decode with a `MalformedStatus`
error.  The constructor stores the response without any validation and no
such error exists: for the 7-character second element "0102011" every one
of these reads succeeds. -/
theorem c8_counterexample :
    AirConditioningCompanionStatus.power
        ⟨["010500978022222102", "0102011", "2"]⟩ = Except.ok "off"
    ∧ AirConditioningCompanionStatus.temperature
        ⟨["010500978022222102", "0102011", "2"]⟩ = Except.ok 1
    ∧ AirConditioningCompanionStatus.fan_speed
        ⟨["010500978022222102", "0102011", "2"]⟩ = Except.ok FanSpeed.Low
    ∧ AirConditioningCompanionStatus.swing_mode
        ⟨["010500978022222102", "0102011", "2"]⟩ = Except.ok false :=
  ⟨rfl, rfl, rfl, rfl⟩

/-- C8 amended: construction performs no length validation and there is no
`MalformedStatus` error; failures surface lazily per field.  For a second
element of at most 6 characters the `power` read still silently succeeds,
while the `temperature` read raises the `ValueError` of `int('', 16)` on
the empty slice. -/
theorem c8_amended_no_validation (s0 s1 s2 : String)
    (h : s1.data.length ≤ 6) :
    (∃ p, AirConditioningCompanionStatus.power ⟨[s0, s1, s2]⟩
        = Except.ok p)
    ∧ AirConditioningCompanionStatus.temperature ⟨[s0, s1, s2]⟩
        = Except.error PyErr.valueErrorInt := by
  constructor
  · exact ⟨_, status_power_eval s0 s1 s2⟩
  · rw [status_temperature_eval, pySlice_of_le s1 6 8 h]
    rfl

/-- C8 amended witness: the amended theorem applied to the 6-character
second element "010201". -/
theorem c8_amended_no_validation_witness :
    ("010201" : String).data.length ≤ 6
    ∧ ((∃ p, AirConditioningCompanionStatus.power
          ⟨["010500978022222102", "010201", "2"]⟩ = Except.ok p)
      ∧ AirConditioningCompanionStatus.temperature
          ⟨["010500978022222102", "010201", "2"]⟩
          = Except.error PyErr.valueErrorInt) :=
  ⟨by decide,
   c8_amended_no_validation "010500978022222102" "010201" "2" (by decide)⟩

/-- C9: for every 3-element response carrying a decimal digit at index 4 of
the second element, reading `fan_speed` succeeds with the `FanSpeed` member
of that code when the digit is in 0..3, and fails — with the `ValueError`
of the `FanSpeed(speed)` enum constructor, the realization of the spec's
`UnknownFanSpeed` — when it is outside; no value is returned in the failing
case. -/
theorem c9_fan_speed_domain (s0 s1 s2 : String) (c : Char) (d : Int)
    (hc : s1.data.get? 4 = some c) (hd : digitVal? c = some d) :
    (d = 0 → AirConditioningCompanionStatus.fan_speed ⟨[s0, s1, s2]⟩
        = Except.ok FanSpeed.Low)
    ∧ (d = 1 → AirConditioningCompanionStatus.fan_speed ⟨[s0, s1, s2]⟩
        = Except.ok FanSpeed.Medium)
    ∧ (d = 2 → AirConditioningCompanionStatus.fan_speed ⟨[s0, s1, s2]⟩
        = Except.ok FanSpeed.High)
    ∧ (d = 3 → AirConditioningCompanionStatus.fan_speed ⟨[s0, s1, s2]⟩
        = Except.ok FanSpeed.Auto)
    ∧ (¬(d = 0 ∨ d = 1 ∨ d = 2 ∨ d = 3) →
        AirConditioningCompanionStatus.fan_speed ⟨[s0, s1, s2]⟩
          = Except.error PyErr.valueErrorEnum) := by
  have hs : pySlice s1 4 5 = String.mk [c] := pySlice_single s1 4 c hc
  have heval : AirConditioningCompanionStatus.fan_speed ⟨[s0, s1, s2]⟩
      = FanSpeed.ofValue d := by
    rw [status_fan_speed_eval, hs, pyInt10_one c d hd]
    rfl
  refine ⟨fun h => ?_, fun h => ?_, fun h => ?_, fun h => ?_, fun h => ?_⟩
  · subst h; rw [heval]; rfl
  · subst h; rw [heval]; rfl
  · subst h; rw [heval]; rfl
  · subst h; rw [heval]; rfl
  · push_neg at h
    obtain ⟨h0, h1, h2, h3⟩ := h
    rw [heval]
    simp [FanSpeed.ofValue, h0, h1, h2, h3]

/-- C9 witness: the theorem applied to the docstring response, whose
second element has the digit '0' at index 4, and to a response with '9'
there. -/
theorem c9_fan_speed_domain_witness :
    AirConditioningCompanionStatus.fan_speed
        ⟨["010500978022222102", "010201190280222221", "2"]⟩
      = Except.ok FanSpeed.Low
    ∧ AirConditioningCompanionStatus.fan_speed
        ⟨["010500978022222102", "010291190280222221", "2"]⟩
      = Except.error PyErr.valueErrorEnum :=
  ⟨(c9_fan_speed_domain "010500978022222102" "010201190280222221" "2"
      '0' 0 (by decide) (by decide)).1 rfl,
   (c9_fan_speed_domain "010500978022222102" "010291190280222221" "2"
      '9' 9 (by decide) (by decide)).2.2.2.2 (by decide)⟩

/-- C10: for every 3-element response whose second element is shorter than
3 characters, reading `power` does not fail: the slice `[2:3)` is empty,
compares unequal to "1", and `power` silently returns "off" (with `is_on`
false) even though the status string is malformed. -/
theorem c10_short_power_silently_off (s0 s1 s2 : String)
    (h : s1.data.length < 3) :
    AirConditioningCompanionStatus.power ⟨[s0, s1, s2]⟩ = Except.ok "off"
    ∧ AirConditioningCompanionStatus.is_on ⟨[s0, s1, s2]⟩
        = Except.ok false := by
  have hs : pySlice s1 2 3 = "" := pySlice_of_le s1 2 3 (by omega)
  have hpow : AirConditioningCompanionStatus.power ⟨[s0, s1, s2]⟩
      = Except.ok "off" := by
    rw [status_power_eval, hs]
    rfl
  refine ⟨hpow, ?_⟩
  show (AirConditioningCompanionStatus.power ⟨[s0, s1, s2]⟩).bind
      (fun p => Except.ok (decide (p = "on"))) = Except.ok false
  rw [hpow]
  rfl

/-- C10 witness: the theorem applied to the 2-character second element
"01": power reads "off" without an error. -/
theorem c10_short_power_silently_off_witness :
    ("01" : String).data.length < 3
    ∧ (AirConditioningCompanionStatus.power
          ⟨["010500978022222102", "01", "2"]⟩ = Except.ok "off"
      ∧ AirConditioningCompanionStatus.is_on
          ⟨["010500978022222102", "01", "2"]⟩ = Except.ok false) :=
  ⟨by decide,
   c10_short_power_silently_off "010500978022222102" "01" "2" (by decide)⟩
